import Mathlib

/-!
Verification of the rayt renderer's CLI and render-orchestration pipeline
(`src/cli.rs` and `src/main.rs`) against its natural-language specification.

The embedding is shallow: pure Rust functions become Lean functions; the
effectful pipeline (`run_render`, `run_generate`, `run`, `main`) becomes a
function that returns the ordered list of observable events (progress log
lines, pipeline stage executions, the thread-pool configuration, the final
stderr line) together with the `Result` value.  The fallible external
collaborators (`load_config`, `Assets::new`, `validate`, `write_image`,
rayon's `build_global`, `build_scene_config`, `save_config`) are supplied as
`Except`-valued oracles, since their bodies live outside the two source
files; the orchestration logic itself is translated line by line.
-/

namespace Rayt

instance {ε α : Type} [DecidableEq ε] [DecidableEq α] :
    DecidableEq (Except ε α) := fun
  | .ok a, .ok b =>
    if h : a = b then .isTrue (by rw [h]) else .isFalse (by simp [h])
  | .ok _, .error _ => .isFalse (by simp)
  | .error _, .ok _ => .isFalse (by simp)
  | .error e, .error f =>
    if h : e = f then .isTrue (by rw [h]) else .isFalse (by simp [h])

/-- Models Rust `str::ends_with` as a suffix test on the list of characters. -/
def ends_with (s suffix : String) : Bool :=
  suffix.data.isSuffixOf s.data

/-- Accumulator loop of Rust's `FromStr` for unsigned integers: consumes
decimal ASCII digits, failing on any non-digit character. -/
def parseDigitsAux : List Char → Nat → Option Nat
  | [], acc => some acc
  | c :: cs, acc =>
    if c.isDigit then parseDigitsAux cs (acc * 10 + (c.toNat - 48)) else none

/-- Models Rust `u64::from_str` / `usize::from_str` (`bits` = 64 on the
64-bit targets this program is built for): an optional leading `+`, then at
least one ASCII digit, and the value must fit in `bits` bits; anything else
(empty string, sign only, stray characters, overflow) is a parse error. -/
def from_str_uint (bits : Nat) (s : String) : Option Nat :=
  let cs := match s.data with
    | '+' :: rest => rest
    | cs => cs
  if cs.isEmpty then none
  else
    match parseDigitsAux cs 0 with
    | none => none
    | some v => if v < 2 ^ bits then some v else none

/-- Enum `CliCommand` from `cli.rs`: the two subcommands.  `u64`/`usize` values
are carried as `Nat`s already bounded by the parser. -/
inductive CliCommand where
  | RENDER (width : Nat) (output_path : String) (num_of_rays : Nat)
      (num_of_threads : Nat)
  | GENERATE
deriving DecidableEq, Repr

/-- Struct `CliConfig` from `cli.rs`. -/
structure CliConfig where
  command : CliCommand
  config_path : String
deriving DecidableEq, Repr

/-- Error `CliParsingError` from `cli.rs`; displays as
`invalid value <value> for arg <arg>`. -/
inductive CliParsingError where
  | InvalidValue (arg : String) (value : String)
deriving DecidableEq, Repr

/-- The error alternatives that can leave `get_cli_config`: a clap usage
error for a missing required argument without a default (clap reports this
while matching, before the function body runs), a failed `ensure!`, or a
`CliParsingError` from `parse`. -/
inductive CliError where
  | MissingRequiredArg (arg : String)
  | EnsureFailed (msg : String)
  | Parsing (e : CliParsingError)
deriving DecidableEq, Repr

/-- The raw string values clap hands to the `render` subcommand body after
matching: every `value_of(..).unwrap()` in the source reads one of these. -/
structure RenderArgsRaw where
  width : String
  output_path : String
  rays : String
  threads : String
deriving DecidableEq, Repr

/-- A `render` invocation as typed on the command line: `none` means the
flag was omitted. -/
structure RenderCliInput where
  width : Option String
  output_path : Option String
  rays : Option String
  threads : Option String
deriving DecidableEq, Repr

/-- Which subcommand was typed (clap's `SubcommandRequiredElseHelp` makes a
missing subcommand unrepresentable). -/
inductive SubInput where
  | render (i : RenderCliInput)
  | generate
deriving DecidableEq, Repr

/-- The subcommand after clap's matching step. -/
inductive ResolvedSub where
  | render (raw : RenderArgsRaw)
  | generate
deriving DecidableEq, Repr

/-- Clap 2.x argument resolution for the `render` subcommand, per the
`Arg` declarations in `cli.rs`: `width` is required and has no default, so
omitting it is a usage error; `output_path`, `rays` and `threads` carry
`default_value`s (`"image.ppm"`, `"100"`, `"4"`), and in clap an argument
with a default is always present, so omitting it substitutes the default
rather than failing. -/
def resolveSub : SubInput → Except CliError ResolvedSub
  | .render i =>
    match i.width with
    | none => .error (.MissingRequiredArg "width")
    | some w =>
      .ok (.render ⟨w, i.output_path.getD "image.ppm", i.rays.getD "100",
        i.threads.getD "4"⟩)
  | .generate => .ok .generate

/-- Function `parse::<T>` from `cli.rs`, specialised to the unsigned integer types
used there; `raw` is the matched string value of argument `arg`. -/
def parse (raw : String) (arg : String) : Except CliParsingError Nat :=
  match from_str_uint 64 raw with
  | some v => .ok v
  | none => .error (.InvalidValue arg raw)

/-- Function `get_cli_config` from `cli.rs`.  Clap matches the arguments first
(`get_matches`), then the body checks the `.yaml` suffix of the config
path, and for `render` parses `width`, `rays`, `threads` and checks the
`.ppm` suffix of the output path, in source order.  The `panic!` fallback
after the two subcommand branches is unreachable here because `SubInput`
has exactly those two alternatives. -/
def get_cli_config (config_path : String) (sub : SubInput) :
    Except CliError CliConfig :=
  match resolveSub sub with
  | .error e => .error e
  | .ok rsub =>
    if ends_with config_path ".yaml" then
      match rsub with
      | .render raw =>
        match parse raw.width "width" with
        | .error e => .error (.Parsing e)
        | .ok width =>
          let output_path := raw.output_path
          match parse raw.rays "rays" with
          | .error e => .error (.Parsing e)
          | .ok num_of_rays =>
            match parse raw.threads "threads" with
            | .error e => .error (.Parsing e)
            | .ok num_of_threads =>
              if ends_with output_path ".ppm" then
                .ok ⟨.RENDER width output_path num_of_rays num_of_threads,
                  config_path⟩
              else
                .error (.EnsureFailed
                  ("Output path <" ++ output_path ++ "> must end in .ppm"))
      | .generate => .ok ⟨.GENERATE, config_path⟩
    else
      .error (.EnsureFailed
        ("Config path <" ++ config_path ++ "> must end in .yaml"))

/-- Display of `CliParsingError`, from its `#[fail(display = ...)]`
attribute in `cli.rs`. -/
def CliParsingError.display : CliParsingError → String
  | .InvalidValue arg value =>
    "invalid value <" ++ value ++ "> for arg <" ++ arg ++ ">"

/-- Rendering of a `CliError` to the message that reaches `main`'s error
report.  `ensure!` errors display their formatted message; clap usage
errors name the missing argument. -/
def CliError.display : CliError → String
  | .MissingRequiredArg arg =>
    "The following required arguments were not provided: --" ++ arg
  | .EnsureFailed msg => msg
  | .Parsing e => e.display

/-! ## The pipeline (`main.rs`) -/

/-- The units of pipeline work `run_render` and `run_generate` dispatch to
their collaborators. -/
inductive Stage where
  | loadScene
  | loadAssets
  | validateAssets
  | compileConfig
  | renderImage
  | encodeImage
  | generateScene
  | saveScene
deriving DecidableEq, Repr

/-- The observable events of one process run, in order: the rayon global
thread-pool configuration, a `StepLogger` progress line
(`[step/num_of_steps] msg...` on stdout), the execution of one pipeline
stage, the final `Done in ...` stdout line, and a stderr line (written
only by `main`'s error branch). -/
inductive Event where
  | poolConfigured (num_of_threads : Nat)
  | stepLog (step : Nat) (num_of_steps : Nat) (msg : String)
  | stageRun (s : Stage)
  | doneLine
  | stderrLine (msg : String)
deriving DecidableEq, Repr

/-- Struct `StepLogger` from `main.rs` (`step` and `num_of_steps` are `u8`; the
counts that occur, 1 through 8, are far below 256, so plain `Nat` is
faithful). -/
structure StepLogger where
  step : Nat
  num_of_steps : Nat
deriving DecidableEq, Repr

/-- Constructor `StepLogger::new`: the counter starts at 1. -/
def StepLogger.new (num_of_steps : Nat) : StepLogger :=
  ⟨1, num_of_steps⟩

/-- Method `StepLogger::log`: asserts `step <= num_of_steps`, prints
`[step/num_of_steps] msg...`, increments `step`.  The printed line is
returned as an event carrying the counter values the assertion inspects. -/
def StepLogger.log (l : StepLogger) (msg : String) : StepLogger × Event :=
  (⟨l.step + 1, l.num_of_steps⟩, .stepLog l.step l.num_of_steps msg)

/-- Outcomes of the fallible collaborators `run_render` calls, plus the
`failed_rays` count of the (infallible) `render` call.  `into_config`
(compile) and `render` return no `Result` in the source, so they have no
error alternative here. -/
structure StageOutcomes where
  build_global : Except String Unit
  load_config : Except String Unit
  assets_new : Except String Unit
  validate : Except String Unit
  failed_rays : Nat
  write_image : Except String Unit
deriving DecidableEq, Repr

/-- Function `run_render` from `main.rs`, line by line: configure the rayon global
pool (first action, `?`), then seven `StepLogger` steps over
load/assets/validate/compile/render/report/encode, each `?` propagating
the stage's error and skipping everything after it. -/
def run_render (num_of_threads : Nat) (o : StageOutcomes) :
    List Event × Except String Unit :=
  match o.build_global with
  | .error e => ([], .error e)
  | .ok _ =>
    let sl := StepLogger.new 7
    let (sl, ev1) := sl.log "Loading image yaml"
    let tr := [Event.poolConfigured num_of_threads, ev1,
      Event.stageRun .loadScene]
    match o.load_config with
    | .error e => (tr, .error e)
    | .ok _ =>
      let (sl, ev2) := sl.log "Loading assets"
      let tr := tr ++ [ev2, Event.stageRun .loadAssets]
      match o.assets_new with
      | .error e => (tr, .error e)
      | .ok _ =>
        let (sl, ev3) := sl.log "Validating assets"
        let tr := tr ++ [ev3, Event.stageRun .validateAssets]
        match o.validate with
        | .error e => (tr, .error e)
        | .ok _ =>
          let (sl, ev4) := sl.log "Creating config (constructing BVH)"
          let tr := tr ++ [ev4, Event.stageRun .compileConfig]
          let (sl, ev5) := sl.log "Rendering"
          let tr := tr ++ [ev5, Event.stageRun .renderImage]
          let msg6 :=
            if o.failed_rays > 0 then
              "Checking for errors: found " ++ toString o.failed_rays ++
                " rays with errors"
            else "Checking for errors: no errors"
          let (sl, ev6) := sl.log msg6
          let tr := tr ++ [ev6]
          let (_, ev7) := sl.log "Printing image"
          let tr := tr ++ [ev7, Event.stageRun .encodeImage]
          match o.write_image with
          | .error e => (tr, .error e)
          | .ok _ => (tr ++ [Event.doneLine], .ok ())

/-- Outcomes of the two fallible collaborators `run_generate` calls. -/
structure GenerateOutcomes where
  build_scene_config : Except String Unit
  save_config : Except String Unit
deriving DecidableEq, Repr

/-- Function `run_generate` from `main.rs`: two `StepLogger` steps, generate then
save, each `?` propagating its error. -/
def run_generate (g : GenerateOutcomes) : List Event × Except String Unit :=
  let sl := StepLogger.new 2
  let (sl, ev1) := sl.log "Generating scene"
  let tr := [ev1, Event.stageRun .generateScene]
  match g.build_scene_config with
  | .error e => (tr, .error e)
  | .ok _ =>
    let (_, ev2) := sl.log "Writing image yaml"
    let tr := tr ++ [ev2, Event.stageRun .saveScene]
    match g.save_config with
    | .error e => (tr, .error e)
    | .ok _ => (tr, .ok ())

/-- The observable parameters of the `indicatif` progress bar built by
`progress_bar` in `main.rs`: its total length and its draw delta. -/
structure ProgressBarModel where
  length : Nat
  draw_delta : Nat
deriving DecidableEq, Repr

/-- Function `progress_bar` from `main.rs`: `bar_size = u64::from(height * width)`
(the multiplication is performed in `u32`, hence the reduction mod `2^32`),
the bar's total is `bar_size`, and `set_draw_delta(bar_size / 1000)` batches
redraws to every `bar_size / 1000` increments (integer division). -/
def progress_bar (width height : Nat) : ProgressBarModel :=
  let bar_size := (height * width) % 2 ^ 32
  ⟨bar_size, bar_size / 1000⟩

/-- Function `run` from `main.rs`: obtain the CLI config, then dispatch to
`run_render` (with the parsed thread count) or `run_generate`.  A CLI
error produces no events at all: no stage runs and no file is touched. -/
def run (config_path : String) (sub : SubInput) (o : StageOutcomes)
    (g : GenerateOutcomes) : List Event × Except String Unit :=
  match get_cli_config config_path sub with
  | .error e => ([], .error e.display)
  | .ok cfg =>
    match cfg.command with
    | .RENDER _ _ _ num_of_threads => run_render num_of_threads o
    | .GENERATE => run_generate g

/-- Function `main` from `main.rs`: on `Err(e)` print one `error: e` line to stderr
and exit with status 1; otherwise exit with status 0.  Result: the full
event trace and the process exit code. -/
def main_model (config_path : String) (sub : SubInput) (o : StageOutcomes)
    (g : GenerateOutcomes) : List Event × Nat :=
  match run config_path sub o g with
  | (tr, .ok _) => (tr, 0)
  | (tr, .error e) => (tr ++ [Event.stderrLine ("error: " ++ e)], 1)

/-! ## Trace observations -/

/-- The pipeline stages executed in a trace, in order. -/
def stagesRun (tr : List Event) : List Stage :=
  tr.filterMap fun ev =>
    match ev with
    | .stageRun s => some s
    | _ => none

/-- The `(step, num_of_steps)` pairs of the progress lines of a trace, in
order. -/
def stepLogs (tr : List Event) : List (Nat × Nat) :=
  tr.filterMap fun ev =>
    match ev with
    | .stepLog i n _ => some (i, n)
    | _ => none

/-- The thread counts of the pool-configuration events of a trace. -/
def poolConfigs (tr : List Event) : List Nat :=
  tr.filterMap fun ev =>
    match ev with
    | .poolConfigured t => some t
    | _ => none

/-- How many lines of a trace went to standard error. -/
def stderrCount (tr : List Event) : Nat :=
  (tr.filter fun ev =>
    match ev with
    | .stderrLine _ => true
    | _ => false).length

/-- All stage oracles of a render succeed. -/
def StageOutcomes.allOk (o : StageOutcomes) : Prop :=
  o.build_global = .ok () ∧ o.load_config = .ok () ∧ o.assets_new = .ok () ∧
    o.validate = .ok () ∧ o.write_image = .ok ()

/-- Both stage oracles of a generate succeed. -/
def GenerateOutcomes.allOk (g : GenerateOutcomes) : Prop :=
  g.build_scene_config = .ok () ∧ g.save_config = .ok ()

/-- A fully successful render outcome set, with `f` failed rays. -/
def okOutcomes (f : Nat) : StageOutcomes :=
  ⟨.ok (), .ok (), .ok (), .ok (), f, .ok ()⟩

/-- A fully successful generate outcome set. -/
def okGenerate : GenerateOutcomes :=
  ⟨.ok (), .ok ()⟩

/-! ## Theorems -/

/-- Neither pipeline writes to standard error itself; only `main` does. -/
theorem stderrCount_run_render (t : Nat) (o : StageOutcomes) :
    stderrCount (run_render t o).1 = 0 := by
  obtain ⟨b, lc, an, v, fr, wi⟩ := o
  cases b <;> cases lc <;> cases an <;> cases v <;> cases wi <;>
    simp [run_render, StepLogger.new, StepLogger.log, stderrCount]

/-- Function `run_generate` writes nothing to standard error either. -/
theorem stderrCount_run_generate (g : GenerateOutcomes) :
    stderrCount (run_generate g).1 = 0 := by
  obtain ⟨bs, sc⟩ := g
  cases bs <;> cases sc <;>
    simp [run_generate, StepLogger.new, StepLogger.log, stderrCount]

/-- The whole of `run` writes nothing to standard error. -/
theorem stderrCount_run (cp : String) (sub : SubInput) (o : StageOutcomes)
    (g : GenerateOutcomes) : stderrCount (run cp sub o g).1 = 0 := by
  unfold run
  rcases get_cli_config cp sub with e | cfg
  · simp [stderrCount]
  · rcases cfg with ⟨cmd, cpath⟩
    rcases cmd with ⟨w, op, r, th⟩ | _
    · exact stderrCount_run_render th o
    · exact stderrCount_run_generate g

/-- C1: on a RENDER invocation, a failing stage (load scene, load assets,
validate, encode; compile and render are infallible in the source) stops
the pipeline — the trace shows exactly the stages up to and including the
failing one — and its error value propagates unchanged out of
`run_render`, through `run`, to `main`, which appends exactly one
`error: ...` stderr line (the pipeline itself wrote none) and exits with
status 1. -/
theorem render_stage_error_aborts_and_main_reports (cp : String)
    (sub : SubInput) (t : Nat) (o : StageOutcomes) (g : GenerateOutcomes)
    (e : String) :
    ((run cp sub o g).2 = .error e →
      main_model cp sub o g
        = ((run cp sub o g).1 ++ [.stderrLine ("error: " ++ e)], 1) ∧
      stderrCount (main_model cp sub o g).1 = 1) ∧
    (∀ w op r cpath, get_cli_config cp sub = .ok ⟨.RENDER w op r t, cpath⟩ →
      run cp sub o g = run_render t o) ∧
    (o.build_global = .ok () → o.load_config = .error e →
      (run_render t o).2 = .error e ∧
        stagesRun (run_render t o).1 = [.loadScene]) ∧
    (o.build_global = .ok () → o.load_config = .ok () →
        o.assets_new = .error e →
      (run_render t o).2 = .error e ∧
        stagesRun (run_render t o).1 = [.loadScene, .loadAssets]) ∧
    (o.build_global = .ok () → o.load_config = .ok () →
        o.assets_new = .ok () → o.validate = .error e →
      (run_render t o).2 = .error e ∧
        stagesRun (run_render t o).1
          = [.loadScene, .loadAssets, .validateAssets]) ∧
    (o.build_global = .ok () → o.load_config = .ok () →
        o.assets_new = .ok () → o.validate = .ok () →
        o.write_image = .error e →
      (run_render t o).2 = .error e ∧
        stagesRun (run_render t o).1
          = [.loadScene, .loadAssets, .validateAssets, .compileConfig,
             .renderImage, .encodeImage] ∧
        Event.doneLine ∉ (run_render t o).1) := by
  refine ⟨?_, ?_, ?_, ?_, ?_, ?_⟩
  · intro h
    rcases hr : run cp sub o g with ⟨tr, res⟩
    rw [hr] at h
    simp only at h
    subst h
    constructor
    · simp [main_model, hr]
    · have h0 := stderrCount_run cp sub o g
      rw [hr] at h0
      simp only at h0
      simp [main_model, hr, stderrCount] at h0 ⊢
      simpa [stderrCount] using h0
  · intro w op r cpath hc
    simp [run, hc]
  · intro hb hl
    simp [run_render, hb, hl, stagesRun, StepLogger.new, StepLogger.log]
  · intro hb hl ha
    simp [run_render, hb, hl, ha, stagesRun, StepLogger.new, StepLogger.log]
  · intro hb hl ha hv
    simp [run_render, hb, hl, ha, hv, stagesRun, StepLogger.new,
      StepLogger.log]
  · intro hb hl ha hv hw
    refine ⟨?_, ?_, ?_⟩ <;>
      simp [run_render, hb, hl, ha, hv, hw, stagesRun, StepLogger.new,
        StepLogger.log]

/-- Witness for C1 at a concrete invocation whose scene load fails with
`boom`: the pipeline stops after the load stage and `main` emits the one
stderr line and exit status 1. -/
theorem render_stage_error_witness :
    main_model "scene.yaml"
        (.render ⟨some "800", some "out.ppm", some "10", some "2"⟩)
        ⟨.ok (), .error "boom", .ok (), .ok (), 0, .ok ()⟩ okGenerate
      = ([Event.poolConfigured 2, .stepLog 1 7 "Loading image yaml",
          .stageRun .loadScene, .stderrLine "error: boom"], 1) ∧
    stagesRun
        (run_render 2 ⟨.ok (), .error "boom", .ok (), .ok (), 0, .ok ()⟩).1
      = [.loadScene] := by
  constructor
  · have h := (render_stage_error_aborts_and_main_reports "scene.yaml"
      (.render ⟨some "800", some "out.ppm", some "10", some "2"⟩) 2
      ⟨.ok (), .error "boom", .ok (), .ok (), 0, .ok ()⟩ okGenerate
      "boom").1 (by decide)
    rw [h.1]
    decide
  · exact ((render_stage_error_aborts_and_main_reports "scene.yaml"
      (.render ⟨some "800", some "out.ppm", some "10", some "2"⟩) 2
      ⟨.ok (), .error "boom", .ok (), .ok (), 0, .ok ()⟩ okGenerate
      "boom").2.2.1 rfl rfl).2

/-- C2: on a fully successful run every stage is announced by exactly one
progress line `[i/N] ...` emitted before the stage executes, with `i`
counting 1, 2, ... and `N` = 7 on the render path and `N` = 2 on the
generate path; the full event traces exhibit the interleaving. -/
theorem progress_lines_numbered (t : Nat) (o : StageOutcomes)
    (g : GenerateOutcomes) (ho : o.allOk) (hg : g.allOk) :
    stepLogs (run_render t o).1
      = [(1, 7), (2, 7), (3, 7), (4, 7), (5, 7), (6, 7), (7, 7)] ∧
    stepLogs (run_generate g).1 = [(1, 2), (2, 2)] ∧
    (∃ m6, (run_render t o).1
      = [.poolConfigured t,
         .stepLog 1 7 "Loading image yaml", .stageRun .loadScene,
         .stepLog 2 7 "Loading assets", .stageRun .loadAssets,
         .stepLog 3 7 "Validating assets", .stageRun .validateAssets,
         .stepLog 4 7 "Creating config (constructing BVH)",
         .stageRun .compileConfig,
         .stepLog 5 7 "Rendering", .stageRun .renderImage,
         .stepLog 6 7 m6,
         .stepLog 7 7 "Printing image", .stageRun .encodeImage,
         .doneLine]) ∧
    (run_generate g).1
      = [.stepLog 1 2 "Generating scene", .stageRun .generateScene,
         .stepLog 2 2 "Writing image yaml", .stageRun .saveScene] := by
  obtain ⟨hb, hl, ha, hv, hw⟩ := ho
  obtain ⟨hbs, hsc⟩ := hg
  refine ⟨?_, ?_, ?_, ?_⟩
  · simp [run_render, hb, hl, ha, hv, hw, stepLogs, StepLogger.new,
      StepLogger.log]
  · simp [run_generate, hbs, hsc, stepLogs, StepLogger.new, StepLogger.log]
  · refine ⟨if o.failed_rays > 0 then
        "Checking for errors: found " ++ toString o.failed_rays ++
          " rays with errors"
      else "Checking for errors: no errors", ?_⟩
    simp [run_render, hb, hl, ha, hv, hw, StepLogger.new, StepLogger.log]
  · simp [run_generate, hbs, hsc, StepLogger.new, StepLogger.log]

/-- Witness for C2 at a concrete all-success run with 5 failed rays. -/
theorem progress_lines_numbered_witness :
    stepLogs (run_render 4 (okOutcomes 5)).1
      = [(1, 7), (2, 7), (3, 7), (4, 7), (5, 7), (6, 7), (7, 7)] ∧
    stepLogs (run_generate okGenerate).1 = [(1, 2), (2, 2)] := by
  have h := progress_lines_numbered 4 (okOutcomes 5) okGenerate
    ⟨rfl, rfl, rfl, rfl, rfl⟩ ⟨rfl, rfl⟩
  exact ⟨h.1, h.2.1⟩

/-- Helper: the per-pair form of the `StepLogger::log` assertion. -/
def stepWithinBound (p : Nat × Nat) : Bool :=
  decide (p.1 ≤ p.2)

/-- C10: the step counter starts at 1 and each `log` call increments it by
one; on every execution path of both pipelines each emitted progress line
satisfies `step ≤ num_of_steps` (the `assert!` in `StepLogger::log` never
fires), and complete runs make exactly `num_of_steps` log calls: 7 on the
render path and 2 on the generate path. -/
theorem step_logger_assertion_never_fires (n t : Nat) (l : StepLogger)
    (m : String) (o : StageOutcomes) (g : GenerateOutcomes) :
    (StepLogger.new n).step = 1 ∧
    (l.log m).1.step = l.step + 1 ∧
    ((stepLogs (run_render t o).1).all stepWithinBound = true) ∧
    ((stepLogs (run_generate g).1).all stepWithinBound = true) ∧
    (o.allOk → (stepLogs (run_render t o).1).length = 7) ∧
    (g.allOk → (stepLogs (run_generate g).1).length = 2) := by
  refine ⟨rfl, rfl, ?_, ?_, ?_, ?_⟩
  · obtain ⟨b, lc, an, v, fr, wi⟩ := o
    cases b <;> cases lc <;> cases an <;> cases v <;> cases wi <;>
      simp [run_render, stepLogs, stepWithinBound, StepLogger.new,
        StepLogger.log]
  · obtain ⟨bs, sc⟩ := g
    cases bs <;> cases sc <;>
      simp [run_generate, stepLogs, stepWithinBound, StepLogger.new,
        StepLogger.log]
  · rintro ⟨hb, hl, ha, hv, hw⟩
    simp [run_render, hb, hl, ha, hv, hw, stepLogs, StepLogger.new,
      StepLogger.log]
  · rintro ⟨hbs, hsc⟩
    simp [run_generate, hbs, hsc, stepLogs, StepLogger.new, StepLogger.log]

/-- Witness for C10 at a concrete logger state and all-success runs. -/
theorem step_logger_assertion_witness :
    (StepLogger.new 7).step = 1 ∧
    (StepLogger.log ⟨3, 7⟩ "msg").1.step = 4 ∧
    (stepLogs (run_render 1 (okOutcomes 0)).1).all stepWithinBound = true ∧
    (stepLogs (run_render 1 (okOutcomes 0)).1).length = 7 ∧
    (stepLogs (run_generate okGenerate).1).length = 2 := by
  have h := step_logger_assertion_never_fires 7 1 ⟨3, 7⟩ "msg"
    (okOutcomes 0) okGenerate
  exact ⟨h.1, h.2.1, h.2.2.1, h.2.2.2.2.1 ⟨rfl, rfl, rfl, rfl, rfl⟩,
    h.2.2.2.2.2 ⟨rfl, rfl⟩⟩

/-- C5: `run_render` configures the rayon global pool to the requested
thread count as its very first action — before any pipeline stage — and
does so exactly once on every execution path; if `build_global` fails the
whole operation aborts immediately with that error and an empty trace. -/
theorem thread_pool_configured_once_first (t : Nat) (o : StageOutcomes)
    (e : String) :
    (o.build_global = .error e → run_render t o = ([], .error e)) ∧
    (o.build_global = .ok () →
      poolConfigs (run_render t o).1 = [t] ∧
      (run_render t o).1.head? = some (.poolConfigured t)) := by
  constructor
  · intro hb
    simp [run_render, hb]
  · intro hb
    obtain ⟨b, lc, an, v, fr, wi⟩ := o
    simp only [StageOutcomes.build_global] at hb
    subst hb
    cases lc <;> cases an <;> cases v <;> cases wi <;>
      simp [run_render, poolConfigs, StepLogger.new, StepLogger.log]

/-- Witness for C5: a failing pool build aborts with an empty trace, and a
successful one is configured once, first, at the requested count. -/
theorem thread_pool_configured_witness :
    run_render 3 ⟨.error "pool taken", .ok (), .ok (), .ok (), 0, .ok ()⟩
      = ([], .error "pool taken") ∧
    poolConfigs (run_render 3 (okOutcomes 0)).1 = [3] := by
  constructor
  · exact (thread_pool_configured_once_first 3
      ⟨.error "pool taken", .ok (), .ok (), .ok (), 0, .ok ()⟩
      "pool taken").1 rfl
  · exact ((thread_pool_configured_once_first 3 (okOutcomes 0)
      "pool taken").2 rfl).1

/-- Replaces the `failed_rays` component of a render's outcomes. -/
def setFailedRays (o : StageOutcomes) (k : Nat) : StageOutcomes :=
  ⟨o.build_global, o.load_config, o.assets_new, o.validate, k,
    o.write_image⟩

/-- C6: the report step emits a diagnostic carrying the failure count when
`failed_rays > 0` and a clean-completion diagnostic when it is 0, the
encode stage runs in both cases, and the operation's result is entirely
independent of `failed_rays`. -/
theorem failed_rays_never_changes_outcome (t : Nat) (o : StageOutcomes)
    (k : Nat) :
    (run_render t (setFailedRays o k)).2 = (run_render t o).2 ∧
    (o.build_global = .ok () → o.load_config = .ok () →
      o.assets_new = .ok () → o.validate = .ok () →
      (0 < o.failed_rays →
        Event.stepLog 6 7 ("Checking for errors: found " ++
            toString o.failed_rays ++ " rays with errors")
          ∈ (run_render t o).1) ∧
      (o.failed_rays = 0 →
        Event.stepLog 6 7 "Checking for errors: no errors"
          ∈ (run_render t o).1) ∧
      Event.stageRun .encodeImage ∈ (run_render t o).1) := by
  constructor
  · obtain ⟨b, lc, an, v, fr, wi⟩ := o
    cases b <;> cases lc <;> cases an <;> cases v <;> cases wi <;>
      simp [run_render, setFailedRays, StepLogger.new, StepLogger.log]
  · intro hb hl ha hv
    refine ⟨?_, ?_, ?_⟩
    · intro hf
      rcases hwi : o.write_image with ew | u <;>
        simp [run_render, hb, hl, ha, hv, hf, hwi, Nat.pos_iff_ne_zero,
          StepLogger.new, StepLogger.log]
    · intro hf
      rcases hwi : o.write_image with ew | u <;>
        simp [run_render, hb, hl, ha, hv, hf, hwi, StepLogger.new,
          StepLogger.log]
    · rcases hwi : o.write_image with ew | u <;>
        simp [run_render, hb, hl, ha, hv, hwi, StepLogger.new,
          StepLogger.log]

/-- Witness for C6: with 5 failed rays the count appears in the step-6
diagnostic, with 0 the clean diagnostic appears, and the final result is
the same either way. -/
theorem failed_rays_witness :
    (run_render 2 (setFailedRays (okOutcomes 0) 5)).2
      = (run_render 2 (okOutcomes 0)).2 ∧
    Event.stepLog 6 7 "Checking for errors: found 5 rays with errors"
      ∈ (run_render 2 (okOutcomes 5)).1 ∧
    Event.stepLog 6 7 "Checking for errors: no errors"
      ∈ (run_render 2 (okOutcomes 0)).1 := by
  refine ⟨(failed_rays_never_changes_outcome 2 (okOutcomes 0) 5).1, ?_, ?_⟩
  · have h := ((failed_rays_never_changes_outcome 2 (okOutcomes 5) 0).2
      rfl rfl rfl rfl).1 (by decide)
    simpa using h
  · exact ((failed_rays_never_changes_outcome 2 (okOutcomes 0) 0).2
      rfl rfl rfl rfl).2.1 rfl

/-- C9 counterexample: at a 65536 × 65536 render the `u32` multiplication
`height * width` in `progress_bar` wraps, so the bar's total is 0 (and the
draw delta 0), not `width * height` — the claimed "total is exactly
`width * height`" fails there. -/
theorem progress_bar_wrap_counterexample :
    (progress_bar 65536 65536).length = 0 ∧
    (progress_bar 65536 65536).draw_delta = 0 ∧
    (progress_bar 65536 65536).length ≠ 65536 * 65536 := by
  exact ⟨rfl, rfl, by decide⟩

/-- C9 amended: for every render the progress bar's total is
`height * width` computed in `u32` — that is, `height * width % 2 ^ 32`,
which equals `width * height` exactly when the product fits in `u32` —
and the visual-refresh batch size is that total divided by 1000 (integer
division), so the bar does not redraw on every single pixel. -/
theorem progress_bar_total_mod_u32 (width height : Nat) :
    (progress_bar width height).length = height * width % 2 ^ 32 ∧
    (progress_bar width height).draw_delta
      = height * width % 2 ^ 32 / 1000 ∧
    (height * width < 2 ^ 32 →
      (progress_bar width height).length = width * height ∧
      (progress_bar width height).draw_delta = width * height / 1000) := by
  refine ⟨rfl, rfl, fun h => ?_⟩
  unfold progress_bar
  rw [Nat.mod_eq_of_lt h, Nat.mul_comm]
  exact ⟨rfl, rfl⟩

/-- Witness for the amended C9 at a 1920 × 1080 render (product within
`u32`): total 2073600 pixels, redraw every 2073 increments. -/
theorem progress_bar_mod_witness :
    (progress_bar 1920 1080).length = 2073600 ∧
    (progress_bar 1920 1080).draw_delta = 2073 := by
  have h := (progress_bar_total_mod_u32 1920 1080).2.2 (by norm_num)
  exact ⟨by rw [h.1], by rw [h.2]⟩

/-- Function `parse` returns the value exactly when Rust's unsigned parse does. -/
theorem parse_eq_ok (raw arg : String) (v : Nat)
    (h : from_str_uint 64 raw = some v) : parse raw arg = .ok v := by
  simp [parse, h]

/-- A failed Rust parse surfaces as `InvalidValue` naming the argument and
the raw value. -/
theorem parse_eq_error (raw arg : String)
    (h : from_str_uint 64 raw = none) :
    parse raw arg = .error (.InvalidValue arg raw) := by
  simp [parse, h]

/-- Inversion for accepted `render` invocations: `get_cli_config` returns
`Ok` exactly when width was given, the config path ends in `.yaml`, all
three numeric arguments parse, and the (possibly defaulted) output path
ends in `.ppm`; the returned command carries the parsed values verbatim. -/
theorem get_cli_config_render_ok_iff (cp : String) (i : RenderCliInput)
    (cfg : CliConfig) :
    get_cli_config cp (.render i) = .ok cfg ↔
      ∃ w0 w r th, i.width = some w0 ∧
        ends_with cp ".yaml" = true ∧
        from_str_uint 64 w0 = some w ∧
        from_str_uint 64 (i.rays.getD "100") = some r ∧
        from_str_uint 64 (i.threads.getD "4") = some th ∧
        ends_with (i.output_path.getD "image.ppm") ".ppm" = true ∧
        cfg = ⟨.RENDER w (i.output_path.getD "image.ppm") r th, cp⟩ := by
  constructor
  · intro h
    unfold get_cli_config resolveSub at h
    try dsimp only at h
    rcases hw : i.width with _ | w0 <;> rw [hw] at h <;> dsimp only at h
    · simp at h
    · cases hy : ends_with cp ".yaml" <;> rw [hy] at h
      · simp at h
      · rw [if_pos rfl] at h
        try dsimp only at h
        rcases hpw : from_str_uint 64 w0 with _ | w
        · rw [parse_eq_error _ _ hpw] at h
          simp at h
        · rw [parse_eq_ok _ _ _ hpw] at h
          try dsimp only at h
          rcases hpr : from_str_uint 64 (i.rays.getD "100") with _ | r
          · rw [parse_eq_error _ _ hpr] at h
            simp at h
          · rw [parse_eq_ok _ _ _ hpr] at h
            try dsimp only at h
            rcases hpt : from_str_uint 64 (i.threads.getD "4") with _ | th
            · rw [parse_eq_error _ _ hpt] at h
              simp at h
            · rw [parse_eq_ok _ _ _ hpt] at h
              try dsimp only at h
              cases hppm : ends_with (i.output_path.getD "image.ppm") ".ppm"
                <;> rw [hppm] at h
              · simp at h
              · rw [if_pos rfl] at h
                injection h with h
                exact ⟨w0, w, r, th, rfl, rfl, hpw, rfl, rfl, rfl, h.symm⟩
  · rintro ⟨w0, w, r, th, hw, hy, hpw, hpr, hpt, hppm, rfl⟩
    simp [get_cli_config, resolveSub, parse, hw, hy, hpw, hpr, hpt, hppm]

/-- C3: with the clap matching done, a config path not ending in `.yaml`
is rejected by `get_cli_config` with an error naming the path, before any
event (hence any file I/O) occurs; on the `render` subcommand, an output
path not ending in `.ppm` is likewise rejected with an error naming it
before any pipeline stage starts. -/
theorem extension_checks_reject_before_anything (cp : String)
    (sub : SubInput) (o : StageOutcomes) (g : GenerateOutcomes)
    (raw : RenderArgsRaw) (rsub : ResolvedSub) :
    (resolveSub sub = .ok rsub → ends_with cp ".yaml" = false →
      get_cli_config cp sub = .error (.EnsureFailed
        ("Config path <" ++ cp ++ "> must end in .yaml")) ∧
      run cp sub o g = ([], .error
        ("Config path <" ++ cp ++ "> must end in .yaml"))) ∧
    (resolveSub sub = .ok (.render raw) → ends_with cp ".yaml" = true →
      (∃ w, from_str_uint 64 raw.width = some w) →
      (∃ r, from_str_uint 64 raw.rays = some r) →
      (∃ th, from_str_uint 64 raw.threads = some th) →
      ends_with raw.output_path ".ppm" = false →
      get_cli_config cp sub = .error (.EnsureFailed
        ("Output path <" ++ raw.output_path ++ "> must end in .ppm")) ∧
      run cp sub o g = ([], .error
        ("Output path <" ++ raw.output_path ++ "> must end in .ppm"))) := by
  constructor
  · intro hres hy
    have hg : get_cli_config cp sub = .error (.EnsureFailed
        ("Config path <" ++ cp ++ "> must end in .yaml")) := by
      unfold get_cli_config
      rw [hres]
      rcases rsub with r' | _ <;> simp [hy]
    exact ⟨hg, by simp [run, hg, CliError.display]⟩
  · rintro hres hy ⟨w, hpw⟩ ⟨r, hpr⟩ ⟨th, hpt⟩ hppm
    have hg : get_cli_config cp sub = .error (.EnsureFailed
        ("Output path <" ++ raw.output_path ++ "> must end in .ppm")) := by
      unfold get_cli_config
      rw [hres]
      try dsimp only
      rw [if_pos hy]
      try dsimp only
      rw [parse_eq_ok _ _ _ hpw]
      try dsimp only
      rw [parse_eq_ok _ _ _ hpr]
      try dsimp only
      rw [parse_eq_ok _ _ _ hpt]
      try dsimp only
      rw [hppm]
      simp
    exact ⟨hg, by simp [run, hg, CliError.display]⟩

/-- Witness for C3: `scene.txt` is rejected naming the path, and on the
render subcommand `out.png` is rejected naming the output path; both with
an empty event trace. -/
theorem extension_checks_witness :
    run "scene.txt" .generate (okOutcomes 0) okGenerate
      = ([], .error "Config path <scene.txt> must end in .yaml") ∧
    run "scene.yaml" (.render ⟨some "800", some "out.png", none, none⟩)
        (okOutcomes 0) okGenerate
      = ([], .error "Output path <out.png> must end in .ppm") := by
  constructor
  · exact ((extension_checks_reject_before_anything "scene.txt" .generate
      (okOutcomes 0) okGenerate ⟨"", "", "", ""⟩ .generate).1 rfl
      (by decide)).2
  · exact ((extension_checks_reject_before_anything "scene.yaml"
      (.render ⟨some "800", some "out.png", none, none⟩) (okOutcomes 0)
      okGenerate ⟨"800", "out.png", "100", "4"⟩ .generate).2 rfl (by decide)
      ⟨800, by decide⟩ ⟨100, by decide⟩ ⟨4, by decide⟩ (by decide)).2

/-- C4: with the clap matching done and the config suffix check passed,
each numeric argument of `render` (width, rays, threads, checked in that
order) either parses as its unsigned type or `get_cli_config` fails with
an error carrying both the argument name and the raw value, and `run`
then produces no event — no pipeline stage runs; when all three parse,
the parsed values are used verbatim. -/
theorem numeric_args_parse_or_error (cp : String) (sub : SubInput)
    (o : StageOutcomes) (g : GenerateOutcomes) (raw : RenderArgsRaw)
    (hres : resolveSub sub = .ok (.render raw))
    (hy : ends_with cp ".yaml" = true) :
    (from_str_uint 64 raw.width = none →
      get_cli_config cp sub
        = .error (.Parsing (.InvalidValue "width" raw.width)) ∧
      run cp sub o g = ([], .error
        ("invalid value <" ++ raw.width ++ "> for arg <" ++ "width" ++ ">"))) ∧
    (∀ w, from_str_uint 64 raw.width = some w →
      from_str_uint 64 raw.rays = none →
      get_cli_config cp sub
        = .error (.Parsing (.InvalidValue "rays" raw.rays)) ∧
      run cp sub o g = ([], .error
        ("invalid value <" ++ raw.rays ++ "> for arg <" ++ "rays" ++ ">"))) ∧
    (∀ w r, from_str_uint 64 raw.width = some w →
      from_str_uint 64 raw.rays = some r →
      from_str_uint 64 raw.threads = none →
      get_cli_config cp sub
        = .error (.Parsing (.InvalidValue "threads" raw.threads)) ∧
      run cp sub o g = ([], .error
        ("invalid value <" ++ raw.threads ++ "> for arg <" ++ "threads"
          ++ ">"))) ∧
    (∀ w r th, from_str_uint 64 raw.width = some w →
      from_str_uint 64 raw.rays = some r →
      from_str_uint 64 raw.threads = some th →
      ends_with raw.output_path ".ppm" = true →
      get_cli_config cp sub
        = .ok ⟨.RENDER w raw.output_path r th, cp⟩) := by
  refine ⟨?_, ?_, ?_, ?_⟩
  · intro hpw
    have hg : get_cli_config cp sub
        = .error (.Parsing (.InvalidValue "width" raw.width)) := by
      unfold get_cli_config
      rw [hres]
      try dsimp only
      rw [if_pos hy]
      try dsimp only
      rw [parse_eq_error _ _ hpw]
    exact ⟨hg, by simp [run, hg, CliError.display,
      CliParsingError.display]⟩
  · intro w hpw hpr
    have hg : get_cli_config cp sub
        = .error (.Parsing (.InvalidValue "rays" raw.rays)) := by
      unfold get_cli_config
      rw [hres]
      try dsimp only
      rw [if_pos hy]
      try dsimp only
      rw [parse_eq_ok _ _ _ hpw]
      try dsimp only
      rw [parse_eq_error _ _ hpr]
    exact ⟨hg, by simp [run, hg, CliError.display,
      CliParsingError.display]⟩
  · intro w r hpw hpr hpt
    have hg : get_cli_config cp sub
        = .error (.Parsing (.InvalidValue "threads" raw.threads)) := by
      unfold get_cli_config
      rw [hres]
      try dsimp only
      rw [if_pos hy]
      try dsimp only
      rw [parse_eq_ok _ _ _ hpw]
      try dsimp only
      rw [parse_eq_ok _ _ _ hpr]
      try dsimp only
      rw [parse_eq_error _ _ hpt]
    exact ⟨hg, by simp [run, hg, CliError.display,
      CliParsingError.display]⟩
  · intro w r th hpw hpr hpt hppm
    unfold get_cli_config
    rw [hres]
    try dsimp only
    rw [if_pos hy]
    try dsimp only
    rw [parse_eq_ok _ _ _ hpw]
    try dsimp only
    rw [parse_eq_ok _ _ _ hpr]
    try dsimp only
    rw [parse_eq_ok _ _ _ hpt]
    try dsimp only
    rw [if_pos hppm]

/-- Witness for C4: `--rays 1oo` is rejected naming the argument and the
raw value, with an empty trace. -/
theorem numeric_args_witness :
    run "scene.yaml" (.render ⟨some "800", none, some "1oo", none⟩)
        (okOutcomes 0) okGenerate
      = ([], .error "invalid value <1oo> for arg <rays>") := by
  have h := ((numeric_args_parse_or_error "scene.yaml"
    (.render ⟨some "800", none, some "1oo", none⟩) (okOutcomes 0)
    okGenerate ⟨"800", "image.ppm", "1oo", "4"⟩ rfl (by decide)).2.1 800
    (by decide) (by decide)).2
  rw [h]
  decide

/-- C7 counterexample: `--threads 0` parses as `usize` and passes every
check in `get_cli_config`, which accepts the invocation and returns a
RENDER command with `num_of_threads = 0` — there is no `thread_count ≥ 1`
validation. -/
theorem zero_threads_accepted :
    get_cli_config "scene.yaml"
        (.render ⟨some "800", some "out.ppm", some "10", some "0"⟩)
      = .ok ⟨.RENDER 800 "out.ppm" 10 0, "scene.yaml"⟩ := by decide

/-- C7 amended: for every RENDER command accepted by `get_cli_config`,
`num_of_threads` is exactly the `usize` parse of the (possibly defaulted)
threads argument — any parseable value is accepted, with no lower bound,
so 0 is among the accepted values. -/
theorem accepted_threads_is_parsed_value (cp : String) (i : RenderCliInput)
    (cfg : CliConfig) (h : get_cli_config cp (.render i) = .ok cfg) :
    ∀ w op r th, cfg.command = .RENDER w op r th →
      from_str_uint 64 (i.threads.getD "4") = some th := by
  obtain ⟨w0, w', r', th', hw, hy, hpw, hpr, hpt, hppm, rfl⟩ :=
    (get_cli_config_render_ok_iff cp i cfg).mp h
  intro w op r th hcmd
  try dsimp only at hcmd
  injection hcmd with h1 h2 h3 h4
  exact h4 ▸ hpt

/-- Witness for the amended C7 at the accepting invocation with
`--threads 0`: the accepted thread count is the parsed 0. -/
theorem accepted_threads_witness :
    from_str_uint 64 ((some "0").getD "4") = some 0 := by
  exact accepted_threads_is_parsed_value "scene.yaml"
    ⟨some "800", some "out.ppm", some "10", some "0"⟩
    ⟨.RENDER 800 "out.ppm" 10 0, "scene.yaml"⟩ (by decide) 800 "out.ppm"
    10 0 rfl

/-- C8 counterexample: an invocation omitting the output path, rays and
threads flags is accepted, with the declared defaults `image.ppm`, 100
and 4 substituted — omission does not fail argument parsing for these
three. -/
theorem omitted_args_get_defaults :
    get_cli_config "scene.yaml" (.render ⟨some "800", none, none, none⟩)
      = .ok ⟨.RENDER 800 "image.ppm" 100 4, "scene.yaml"⟩ := by decide

/-- C8 amended: of the four `render` parameters only `width` is required —
omitting it fails at clap's argument matching; `output_path`, `rays` and
`threads` carry declared defaults, and an invocation omitting any of them
is accepted with `image.ppm`, 100 and 4 respectively substituted. -/
theorem width_required_others_defaulted (cp : String) (i : RenderCliInput) :
    (i.width = none →
      get_cli_config cp (.render i)
        = .error (.MissingRequiredArg "width")) ∧
    (∀ cfg, get_cli_config cp (.render i) = .ok cfg →
      ∀ w op r th, cfg.command = .RENDER w op r th →
        (i.output_path = none → op = "image.ppm") ∧
        (i.rays = none → r = 100) ∧
        (i.threads = none → th = 4)) := by
  constructor
  · intro hw
    simp [get_cli_config, resolveSub, hw]
  · intro cfg h w op r th hcmd
    obtain ⟨w0, w', r', th', hw, hy, hpw, hpr, hpt, hppm, rfl⟩ :=
      (get_cli_config_render_ok_iff cp i cfg).mp h
    try dsimp only at hcmd
    injection hcmd with h1 h2 h3 h4
    refine ⟨?_, ?_, ?_⟩
    · intro hop
      rw [← h2, hop]
      rfl
    · intro hr
      have hv : from_str_uint 64 "100" = some 100 := by decide
      rw [hr] at hpr
      simp only [Option.getD] at hpr
      rw [hv] at hpr
      injection hpr with hpr
      rw [← h3]
      exact hpr.symm
    · intro ht
      have hv : from_str_uint 64 "4" = some 4 := by decide
      rw [ht] at hpt
      simp only [Option.getD] at hpt
      rw [hv] at hpt
      injection hpt with hpt
      rw [← h4]
      exact hpt.symm

/-- Witness for the amended C8: omitting `width` is rejected at matching,
and an accepted invocation omitting the other three flags carries the
defaults. -/
theorem width_required_witness :
    get_cli_config "scene.yaml" (.render ⟨none, none, none, none⟩)
      = .error (.MissingRequiredArg "width") ∧
    ("image.ppm" = "image.ppm" ∧ (100 : Nat) = 100 ∧ (4 : Nat) = 4) := by
  constructor
  · exact (width_required_others_defaulted "scene.yaml"
      ⟨none, none, none, none⟩).1 rfl
  · have h := (width_required_others_defaulted "scene.yaml"
      ⟨some "800", none, none, none⟩).2
      ⟨.RENDER 800 "image.ppm" 100 4, "scene.yaml"⟩ (by decide)
      800 "image.ppm" 100 4 rfl
    exact ⟨h.1 rfl, h.2.1 rfl, h.2.2 rfl⟩

end Rayt
